import Mathlib

/-!
Shallow embedding of the relative-volatility calculator of `perform.py`
(`calculate_relative_volatility` with its helpers `extract_prices`,
`get_historical_price_data` and the percentage-change loops), together with
proofs of the behavioral properties stated in the specification.

Python floats are modelled as rationals; the square root inside
`statistics.stdev` lands in the reals.  Python runtime values that can occur
as "price entries" are modelled by the inductive type `PyVal`.  The
historical-data lookup (`get_historical_price_data` in the source, the
"price_history_provider" of the specification) is a function parameter that
may raise, modelled with `Except`.
-/

namespace Volatility

/-- Python runtime values as far as the extraction code inspects them:
`None`, numbers (`int`/`float`, modelled as rationals), strings (carrying
their `float(...)` parse result when the string is numeric), lists/tuples,
dictionaries (carrying the value stored under the `"price"` key when
present), and a catch-all for any other non-iterable object. -/
inductive PyVal where
  | vnone : PyVal
  | num : ℚ → PyVal
  | str : Option ℚ → PyVal
  | list : List PyVal → PyVal
  | dict : Option PyVal → PyVal
  | obj : PyVal

/-- The Python coercion `float(x)` as applied by `extract_prices`: numbers
convert to themselves, numeric strings parse, and every other value raises
`ValueError`/`TypeError`, which the source catches and turns into "no
price", hence `none` here. -/
def pyFloat : PyVal → Option ℚ
  | .num q => some q
  | .str s => s
  | _ => none

/-- Price lookup for a single entry (perform.py lines 610-629): a dictionary
contributes `float(entry["price"])` when that key is present and not `None`,
a list/tuple contributes `float(entry[0])` when nonempty with a non-`None`
head, a plain number contributes itself, and everything else (including
`None` entries and strings, which match none of the `isinstance` branches)
contributes nothing. -/
def extractEntry : PyVal → Option ℚ
  | .vnone => none
  | .dict none => none
  | .dict (some .vnone) => none
  | .dict (some v) => pyFloat v
  | .list [] => none
  | .list (.vnone :: _) => none
  | .list (v :: _) => pyFloat v
  | .num q => some q
  | .str _ => none
  | .obj => none

/-- The helper `extract_prices` (perform.py lines 600-637): `None`, strings
and non-iterable values give `[]`; iterating a dictionary yields its string
keys, each of which the entry dispatch skips, so it also gives `[]`; a list
keeps, in order, every entry whose extracted price exists and is strictly
positive. -/
def extractPrices : PyVal → List ℚ
  | .list es => es.filterMap fun e =>
      match extractEntry e with
      | some p => if 0 < p then some p else none
      | none => none
  | _ => []

/-- Percentage-change loop (perform.py lines 674-682 and 707-714): for each
consecutive pair, when the prior price is strictly positive, append
`(cur / prior - 1) * 100`, otherwise skip the step.  Over the rationals the
`ZeroDivisionError`/`OverflowError` handler of the source has no analogue:
division never raises. -/
def pctChanges : List ℚ → List ℚ
  | p0 :: p1 :: rest =>
      (if 0 < p0 then [(p1 / p0 - 1) * 100] else []) ++ pctChanges (p1 :: rest)
  | _ => []

/-- Arithmetic mean over the rationals. -/
def qmean (xs : List ℚ) : ℚ := xs.sum / xs.length

/-- Sample variance with the N-1 denominator: the quantity under the square
root of Python `statistics.stdev`, which computes it in exact fraction
arithmetic. -/
def sampleVar (xs : List ℚ) : ℚ :=
  (xs.map fun x => (x - qmean xs) ^ 2).sum / ((xs.length : ℚ) - 1)

/-- Python `statistics.stdev`: the square root of the sample variance.  The
source only invokes it after ensuring at least two data points, so the
`StatisticsError` branch it guards against is unreachable and not
modelled. -/
noncomputable def stdev (xs : List ℚ) : ℝ := Real.sqrt (sampleVar xs)

/-- Arithmetic mean over the reals (Python `statistics.mean` applied to the
collected reference volatilities). -/
noncomputable def rmean (xs : List ℝ) : ℝ := xs.sum / xs.length

/-- The injected historical-data lookup: called with a token symbol, a
lookback in hours and the timeframe string; it may raise (the
`Except.error` case) or return any Python value, with `PyVal.vnone`
modelling a `None` result. -/
abbrev Provider (ε : Type) := String → Nat → String → Except ε PyVal

/-- Timeframe-to-lookback selection (perform.py lines 592-597). -/
def timeframeHours (tf : String) : Nat :=
  if tf = "1h" then 24 else if tf = "24h" then 7 * 24 else 30 * 24

/-- One reference token inside the baseline loop, after the membership test
(perform.py lines 700-724): fetch its history (a raising provider is caught
by the `except Exception: continue` of the loop body), extract prices,
require at least 5 of them and at least 2 percentage changes, and yield the
standard deviation of the changes. -/
noncomputable def refVolatility {ε : Type} (provider : Provider ε)
    (hours : Nat) (tf : String) (ref : String) : Option ℝ :=
  match provider ref hours tf with
  | .error _ => none
  | .ok h =>
    let ps := extractPrices h
    if ps.length < 5 then none
    else
      let cs := pctChanges ps
      if cs.length < 2 then none
      else some (stdev cs)

/-- Contribution of one reference token to `market_volatilities`
(perform.py lines 696-724): tokens absent from the caller-supplied
`market_data` mapping are skipped before any fetch happens. -/
noncomputable def refContrib {ε : Type} (provider : Provider ε)
    (md : List String) (hours : Nat) (tf : String) (ref : String) :
    Option ℝ :=
  if ref ∈ md then refVolatility provider hours tf ref else none

/-- The collected `market_volatilities` list (perform.py lines 694-724), in
reference-token order. -/
noncomputable def marketVols {ε : Type} (provider : Provider ε)
    (md : List String) (hours : Nat) (tf : String)
    (refs : List String) : List ℝ :=
  refs.filterMap (refContrib provider md hours tf)

/-- Body of `calculate_relative_volatility` inside the outer `try`
(perform.py lines 591-738).  Only the subject-token fetch can raise out of
the body: every reference-token fetch is guarded by the inner
`except Exception: continue` of the loop. -/
noncomputable def calcRelVolBody {ε : Type} (provider : Provider ε)
    (token : String) (reference_tokens : List String)
    (market_data : List String) (timeframe : String) : Except ε (Option ℝ) :=
  match provider token (timeframeHours timeframe) timeframe with
  | .error e => .error e
  | .ok h =>
    let token_prices := extractPrices h
    if token_prices.length < 5 then .ok none
    else
      let token_changes := pctChanges token_prices
      if token_changes.length < 2 then .ok none
      else
        let token_volatility := stdev token_changes
        let market_volatilities :=
          marketVols provider market_data (timeframeHours timeframe) timeframe
            reference_tokens
        if market_volatilities.isEmpty then .ok none
        else
          let market_avg_volatility := rmean market_volatilities
          if 0 < market_avg_volatility then
            .ok (some (token_volatility / market_avg_volatility))
          else .ok none

/-- The full `calculate_relative_volatility` (perform.py lines 587-742):
the outer `except Exception: return None` turns every exception escaping
the body into the soft no-result `none`. -/
noncomputable def calculate_relative_volatility {ε : Type}
    (provider : Provider ε) (token : String)
    (reference_tokens : List String) (market_data : List String)
    (timeframe : String) : Except ε (Option ℝ) :=
  match calcRelVolBody provider token reference_tokens market_data timeframe with
  | .error _ => .ok none
  | .ok v => .ok v

/-- An entry already in one of the three well-formed shapes of the
specification: a plain number, a record with a numeric `"price"` field, or
a pair/tuple whose first element is numeric. -/
def plainish : PyVal → Bool
  | .num _ => true
  | .dict (some (.num _)) => true
  | .list (.num _ :: _) => true
  | _ => false

/-- Replace a well-formed entry by the plain number carrying its price;
leave anything else alone. -/
def asPlain : PyVal → PyVal
  | .dict (some (.num q)) => .num q
  | .list (.num q :: _) => .num q
  | e => e

/-- The example price series of the specification:
`[100, 102, 98, 105, 103, 99, 107, 104]`. -/
def hist8 : PyVal :=
  .list [.num 100, .num 102, .num 98, .num 105, .num 103, .num 99,
    .num 107, .num 104]

/-- A constant price series of eight entries at price 100. -/
def constHist : PyVal :=
  .list [.num 100, .num 100, .num 100, .num 100, .num 100, .num 100,
    .num 100, .num 100]

/-- A short history of three entries. -/
def shortHist : PyVal := .list [.num 1, .num 2, .num 3]

/-- A geometric price series: non-constant prices, but every percentage
change equals 100, so the change variance is zero. -/
def gpHist : PyVal :=
  .list [.num 100, .num 200, .num 400, .num 800, .num 1600]

/-- A provider serving the geometric series to every token. -/
def gpProv : Provider Unit := fun _ _ _ => .ok gpHist

/-- A provider that raises on every call. -/
def errProv : Provider Unit := fun _ _ _ => .error ()

/-- A provider serving the example series to every token. -/
def parityProv : Provider Unit := fun _ _ _ => .ok hist8

/-- A provider serving the example series to the subject token `"TOK"` and
a constant series to everything else. -/
def constRefProv : Provider Unit := fun s _ _ =>
  if s = "TOK" then .ok hist8 else .ok constHist

/-- A provider serving a three-entry history to the subject token `"TOK"`
and the full example series to everything else. -/
def shortProv : Provider Unit := fun s _ _ =>
  if s = "TOK" then .ok shortHist else .ok hist8

/-- A provider serving the example series to the subject token `"TOK"` and
an empty sequence to everything else. -/
def emptyRefProv : Provider Unit := fun s _ _ =>
  if s = "TOK" then .ok hist8 else .ok (.list [])

/-- Like `parityProv` but raising for the symbol `"OUT"`. -/
def altProv : Provider Unit := fun s _ _ =>
  if s = "OUT" then .error () else .ok hist8

/-- The example series is non-constant: its changes have positive sample
variance. -/
lemma var_hist8_pos : 0 < sampleVar (pctChanges (extractPrices hist8)) := by
  have h : extractPrices hist8 = [100, 102, 98, 105, 103, 99, 107, 104] := by
    decide
  rw [h]
  norm_num [pctChanges, sampleVar, qmean]

/-- The constant series has zero sample variance of changes. -/
lemma var_constHist : sampleVar (pctChanges (extractPrices constHist)) = 0 := by
  have h : extractPrices constHist =
      [100, 100, 100, 100, 100, 100, 100, 100] := by decide
  rw [h]
  norm_num [pctChanges, sampleVar, qmean]

/-- The constant series has zero volatility. -/
lemma stdev_constHist : stdev (pctChanges (extractPrices constHist)) = 0 := by
  unfold stdev
  rw [var_constHist]
  simp

/-- The geometric series has zero sample variance of changes: every change
is exactly 100. -/
lemma var_gpHist : sampleVar (pctChanges (extractPrices gpHist)) = 0 := by
  have h : extractPrices gpHist = [100, 200, 400, 800, 1600] := by decide
  rw [h]
  norm_num [pctChanges, sampleVar, qmean]

/-- The geometric series has zero volatility. -/
lemma stdev_gpHist : stdev (pctChanges (extractPrices gpHist)) = 0 := by
  unfold stdev
  rw [var_gpHist]
  simp

/-- Every price kept by `extract_prices` is strictly positive: the source
appends only after the `price > 0` test. -/
lemma extractPrices_pos {H : PyVal} {p : ℚ} (hp : p ∈ extractPrices H) :
    0 < p := by
  cases H with
  | list es =>
    simp only [extractPrices, List.mem_filterMap] at hp
    obtain ⟨e, -, he⟩ := hp
    rcases hq : extractEntry e with - | q <;> rw [hq] at he <;> dsimp only at he
    · exact absurd he (by simp)
    · by_cases h0 : 0 < q
      · rw [if_pos h0] at he
        cases he
        exact h0
      · rw [if_neg h0] at he
        exact absurd he (by simp)
  | vnone => exact absurd hp (by simp [extractPrices])
  | num q => exact absurd hp (by simp [extractPrices])
  | str s => exact absurd hp (by simp [extractPrices])
  | dict d => exact absurd hp (by simp [extractPrices])
  | obj => exact absurd hp (by simp [extractPrices])

/-- On an all-positive price series the percentage-change loop skips
nothing: it produces exactly one change per consecutive pair. -/
lemma pctChanges_length_of_pos : ∀ ps : List ℚ, (∀ p ∈ ps, 0 < p) →
    (pctChanges ps).length = ps.length - 1
  | [], _ => rfl
  | [_], _ => rfl
  | p0 :: p1 :: rest, h => by
    have h0 : 0 < p0 := h p0 (by simp)
    have ih := pctChanges_length_of_pos (p1 :: rest)
      (fun p hp => h p (List.mem_cons_of_mem _ hp))
    show ((if 0 < p0 then [(p1 / p0 - 1) * 100] else []) ++
        pctChanges (p1 :: rest)).length = (p0 :: p1 :: rest).length - 1
    rw [if_pos h0, List.length_append, ih]
    simp only [List.length_cons, List.length_nil]
    omega

/-- The percentage-change loop computes, in order, one change per
consecutive pair of prices whose prior element is strictly positive, and
skips exactly the pairs whose prior element (the divisor) is not. -/
lemma pctChanges_eq_filterMap : ∀ ps : List ℚ,
    pctChanges ps = (ps.zip ps.tail).filterMap
      fun q => if 0 < q.1 then some ((q.2 / q.1 - 1) * 100) else none
  | [] => rfl
  | [_] => rfl
  | p0 :: p1 :: rest => by
    have ih := pctChanges_eq_filterMap (p1 :: rest)
    by_cases h0 : 0 < p0
    · simp only [pctChanges, if_pos h0, List.tail_cons, List.zip_cons_cons,
        List.filterMap_cons, ih]
      simp [if_pos h0]
    · simp only [pctChanges, if_neg h0, List.tail_cons, List.zip_cons_cons,
        List.filterMap_cons, ih]
      simp [if_neg h0]

/-- The mean of the empty list is zero (division by a zero length). -/
lemma rmean_nil : rmean [] = 0 := by
  simp [rmean]

/-- The mean of a nonempty constant list is its constant value. -/
lemma rmean_replicate {n : ℕ} (hn : n ≠ 0) (x : ℝ) :
    rmean (List.replicate n x) = x := by
  unfold rmean
  rw [List.sum_replicate, List.length_replicate, nsmul_eq_mul]
  exact mul_div_cancel_left₀ x (Nat.cast_ne_zero.mpr hn)

/-- The mean of a list of zeros is zero. -/
lemma rmean_zeros {xs : List ℝ} (h : ∀ x ∈ xs, x = 0) : rmean xs = 0 := by
  unfold rmean
  rw [List.sum_eq_zero h, zero_div]

/-- A reference token outside the `market_data` mapping contributes
nothing. -/
lemma refContrib_of_not_mem {ε : Type} {provider : Provider ε}
    {md : List String} {hours : Nat} {tf r : String} (hmem : r ∉ md) :
    refContrib provider md hours tf r = none := by
  unfold refContrib
  rw [if_neg hmem]

/-- When no reference token contributes, the collected volatility list is
empty. -/
lemma marketVols_eq_nil {ε : Type} {provider : Provider ε}
    {md : List String} {hours : Nat} {tf : String} {refs : List String}
    (h : ∀ r ∈ refs, refContrib provider md hours tf r = none) :
    marketVols provider md hours tf refs = [] := by
  unfold marketVols
  exact List.filterMap_eq_nil_iff.mpr h

/-- When every reference token contributes the same volatility, the
collected list is that constant list. -/
lemma marketVols_all_some {ε : Type} {provider : Provider ε}
    {md : List String} {hours : Nat} {tf : String} {v : ℝ} :
    ∀ refs : List String,
      (∀ r ∈ refs, refContrib provider md hours tf r = some v) →
      marketVols provider md hours tf refs = List.replicate refs.length v
  | [], _ => rfl
  | a :: l, h => by
    have ha := h a (by simp)
    have ih := marketVols_all_some l (fun r hr => h r (List.mem_cons_of_mem _ hr))
    have ih' : List.filterMap (refContrib provider md hours tf) l =
        List.replicate l.length v := ih
    show List.filterMap (refContrib provider md hours tf) (a :: l) =
      List.replicate (a :: l).length v
    rw [List.filterMap_cons, ha, ih']
    rfl

/-- A reference token whose fetch succeeds with enough data contributes the
standard deviation of its percentage changes. -/
lemma refVolatility_of_ok {ε : Type} {provider : Provider ε}
    {hours : Nat} {tf r : String} {H : PyVal}
    (hp : provider r hours tf = .ok H)
    (h5 : ¬ (extractPrices H).length < 5)
    (h2 : ¬ (pctChanges (extractPrices H)).length < 2) :
    refVolatility provider hours tf r =
      some (stdev (pctChanges (extractPrices H))) := by
  unfold refVolatility
  rw [hp]
  dsimp only
  rw [if_neg h5, if_neg h2]

/-- Once the five-price check passes, the all-positive-price invariant
forces at least four changes, so the two-change guard cannot fire. -/
lemma changes_ge_two {H : PyVal} (h5 : 5 ≤ (extractPrices H).length) :
    ¬ (pctChanges (extractPrices H)).length < 2 := by
  rw [pctChanges_length_of_pos _ (fun p hp => extractPrices_pos hp)]
  omega

/-- Any run in which the averaged market volatility is not positive ends in
the soft no-result, whichever earlier guard fires first. -/
lemma calc_none_of_mean_nonpos {ε : Type} (provider : Provider ε)
    (token : String) (refs md : List String) (tf : String)
    (hm : ¬ 0 < rmean (marketVols provider md (timeframeHours tf) tf refs)) :
    calculate_relative_volatility provider token refs md tf = .ok none := by
  unfold calculate_relative_volatility calcRelVolBody
  cases hp : provider token (timeframeHours tf) tf with
  | error e => rfl
  | ok h =>
    dsimp only
    split_ifs with h1 h2 h3
    all_goals rfl

/-- Parity: when the subject token and every reference token are served the
very same history, and that history is valid (at least 5 positive prices,
non-constant changes), the relative volatility is exactly 1. -/
lemma parity_case {ε : Type} (provider : Provider ε) (token : String)
    (refs md : List String) (tf : String) (H : PyVal)
    (hne : refs ≠ [])
    (hmd : ∀ r ∈ refs, r ∈ md)
    (htok : provider token (timeframeHours tf) tf = .ok H)
    (href : ∀ r ∈ refs, ∃ Hr, provider r (timeframeHours tf) tf = .ok Hr ∧
      extractPrices Hr = extractPrices H)
    (hlen : 5 ≤ (extractPrices H).length)
    (hvar : 0 < sampleVar (pctChanges (extractPrices H))) :
    calculate_relative_volatility provider token refs md tf =
      .ok (some 1) := by
  have h5 : ¬ (extractPrices H).length < 5 := by omega
  have h2 := changes_ge_two hlen
  have hvpos : 0 < stdev (pctChanges (extractPrices H)) :=
    Real.sqrt_pos.mpr (by exact_mod_cast hvar)
  have hcontrib : ∀ r ∈ refs, refContrib provider md (timeframeHours tf) tf r
      = some (stdev (pctChanges (extractPrices H))) := by
    intro r hr
    obtain ⟨Hr, hpr, hext⟩ := href r hr
    unfold refContrib
    rw [if_pos (hmd r hr),
      refVolatility_of_ok hpr (hext.symm ▸ h5) (hext.symm ▸ h2), hext]
  have hmv := marketVols_all_some refs hcontrib
  have hlen0 : refs.length ≠ 0 := fun h => hne (List.length_eq_zero.mp h)
  have hemp : (List.replicate refs.length
      (stdev (pctChanges (extractPrices H)))).isEmpty = false := by
    cases hrl : refs.length with
    | zero => exact absurd hrl hlen0
    | succ n => rfl
  unfold calculate_relative_volatility calcRelVolBody
  rw [htok]
  dsimp only
  rw [if_neg h5, if_neg h2, hmv, hemp]
  simp only [Bool.false_eq_true, if_false]
  rw [rmean_replicate hlen0, if_pos hvpos,
    div_self (ne_of_gt hvpos)]

/-- Pointwise equality of baseline contributions for two providers that can
differ only at a reference token excluded by the `market_data` mapping. -/
lemma refContrib_agree {ε : Type} {p1 p2 : Provider ε} {md : List String}
    {hours : Nat} {tf ref : String}
    (hmem : ref ∉ md)
    (hag : ∀ s h t, s ≠ ref → p1 s h t = p2 s h t) (r : String) :
    refContrib p1 md hours tf r = refContrib p2 md hours tf r := by
  by_cases hr : r = ref
  · subst hr
    simp [refContrib, hmem]
  · unfold refContrib refVolatility
    rw [hag r hours tf hr]

/-- Dropping a reference token excluded by `market_data` from the basket,
and changing what the provider would have answered for it, leaves the
collected volatility list untouched. -/
lemma marketVols_skip {ε : Type} (p1 p2 : Provider ε) (md : List String)
    (hours : Nat) (tf ref : String) (pre post : List String)
    (hmem : ref ∉ md)
    (hag : ∀ s h t, s ≠ ref → p1 s h t = p2 s h t) :
    marketVols p1 md hours tf (pre ++ ref :: post) =
      marketVols p2 md hours tf (pre ++ post) := by
  have hfun : refContrib p1 md hours tf = refContrib p2 md hours tf :=
    funext (refContrib_agree hmem hag)
  have hnone : refContrib p2 md hours tf ref = none := refContrib_of_not_mem hmem
  unfold marketVols
  rw [hfun, List.filterMap_append, List.filterMap_append, List.filterMap_cons,
    hnone]

/-- A reference token served the constant series contributes a volatility
of zero. -/
lemma refVol_constHist {ε : Type} {provider : Provider ε} {hours : Nat}
    {tf r : String} (hp : provider r hours tf = .ok constHist) :
    refVolatility provider hours tf r = some 0 := by
  rw [refVolatility_of_ok hp (by decide) (changes_ge_two (by decide)),
    stdev_constHist]

/-- When every reference token is served one fixed history whose change
volatility is zero, the averaged market volatility is exactly zero: every
reference either fails its sufficiency checks (contributing nothing) or
contributes that zero volatility. -/
lemma marketVols_flat {ε : Type} {provider : Provider ε}
    {md : List String} {hours : Nat} {tf : String} {refs : List String}
    {H : PyVal}
    (h : ∀ r ∈ refs, provider r hours tf = .ok H)
    (hst : stdev (pctChanges (extractPrices H)) = 0) :
    rmean (marketVols provider md hours tf refs) = 0 := by
  apply rmean_zeros
  intro x hx
  unfold marketVols at hx
  rw [List.mem_filterMap] at hx
  obtain ⟨r, hr, hcr⟩ := hx
  unfold refContrib at hcr
  by_cases hmem : r ∈ md
  · rw [if_pos hmem] at hcr
    unfold refVolatility at hcr
    rw [h r hr] at hcr
    dsimp only at hcr
    by_cases h5 : (extractPrices H).length < 5
    · rw [if_pos h5] at hcr
      exact absurd hcr (by simp)
    · rw [if_neg h5] at hcr
      by_cases h2 : (pctChanges (extractPrices H)).length < 2
      · rw [if_pos h2] at hcr
        exact absurd hcr (by simp)
      · rw [if_neg h2] at hcr
        injection hcr with hcr
        rw [← hcr]
        exact hst
  · rw [if_neg hmem] at hcr
    exact absurd hcr (by simp)

/-- When every reference token is served the constant series, the averaged
market volatility is exactly zero. -/
lemma mean_zero_constRef {ε : Type} {provider : Provider ε}
    {md : List String} {hours : Nat} {tf : String} {refs : List String}
    (h : ∀ r ∈ refs, provider r hours tf = .ok constHist) :
    rmean (marketVols provider md hours tf refs) = 0 :=
  marketVols_flat h stdev_constHist

/-- A reference token whose provider call yields an empty sequence or
`None` contributes nothing to the baseline. -/
lemma refContrib_none_of_no_data {ε : Type} {provider : Provider ε}
    {md : List String} {hours : Nat} {tf r : String}
    (hp : provider r hours tf = .ok (.list []) ∨
      provider r hours tf = .ok .vnone) :
    refContrib provider md hours tf r = none := by
  unfold refContrib
  split
  · unfold refVolatility
    rcases hp with hp | hp <;> rw [hp] <;> rfl
  · rfl

/-- Extracting from a well-formed entry and from its plain-number
replacement gives the same price. -/
lemma extractEntry_asPlain (e : PyVal) (h : plainish e = true) :
    extractEntry (asPlain e) = extractEntry e := by
  unfold plainish at h
  split at h
  · rfl
  · rfl
  · rfl
  · exact absurd h (by simp)

/-- Entry-shape normalization: extraction over a list of well-formed
entries equals extraction over the list with every entry replaced by its
plain-number form. -/
lemma extract_asPlain (es : List PyVal) (h : ∀ e ∈ es, plainish e = true) :
    extractPrices (.list es) = extractPrices (.list (es.map asPlain)) := by
  unfold extractPrices
  dsimp only
  rw [List.filterMap_map]
  apply List.filterMap_congr
  intro e he
  simp only [Function.comp_apply, extractEntry_asPlain e (h e he)]

/-- C1 counterexample: with a provider that raises on every call, the body
of the computation does raise, yet `calculate_relative_volatility` returns
the soft no-result `.ok none` — the exception does not reach the caller,
contradicting the claim that provider exceptions propagate. -/
theorem c1_provider_error_not_propagated :
    calcRelVolBody errProv "BTC" ["ETH"] ["ETH"] "1h" = .error () ∧
    calculate_relative_volatility errProv "BTC" ["ETH"] ["ETH"] "1h" =
      .ok none :=
  ⟨rfl, rfl⟩

/-- C1 (amended): an exception raised by the provider never propagates:
when the subject-token fetch raises, the outer handler converts the
exception into the soft no-result, and the call never returns an error in
any case. -/
theorem c1_provider_error_swallowed :
    (∀ (ε : Type) (provider : Provider ε) (token : String)
        (refs md : List String) (tf : String) (e : ε),
      provider token (timeframeHours tf) tf = .error e →
      calculate_relative_volatility provider token refs md tf = .ok none) ∧
    (∀ (ε : Type) (provider : Provider ε) (token : String)
        (refs md : List String) (tf : String),
      ∃ r, calculate_relative_volatility provider token refs md tf =
        .ok r) := by
  constructor
  · intro ε provider token refs md tf e hp
    unfold calculate_relative_volatility calcRelVolBody
    rw [hp]
  · intro ε provider token refs md tf
    unfold calculate_relative_volatility
    cases hb : calcRelVolBody provider token refs md tf with
    | error e => exact ⟨none, rfl⟩
    | ok v => exact ⟨v, rfl⟩

/-- C1 witness: the amended guarantee applied to the always-raising
provider. -/
theorem c1_provider_error_swallowed_witness :
    calculate_relative_volatility errProv "SOL" ["ETH"] ["ETH"] "24h" =
      .ok none :=
  c1_provider_error_swallowed.1 Unit errProv "SOL" ["ETH"] ["ETH"] "24h" () rfl

/-- C2 counterexample: the geometric series `[100, 200, 400, 800, 1600]`
has five positive prices and is non-constant, and every reference token is
served the identical series, yet the result is the no-result rather than 1:
all percentage changes are equal, so both the token volatility and the
averaged market volatility are zero and the positive-average branch is not
taken. -/
theorem c2_parity_counterexample :
    extractPrices gpHist = [100, 200, 400, 800, 1600] ∧
    calculate_relative_volatility gpProv "TOK" ["ETH"] ["ETH"] "1h" =
      .ok none := by
  refine ⟨by decide, ?_⟩
  apply calc_none_of_mean_nonpos
  rw [marketVols_flat (fun r hr => rfl) stdev_gpHist]
  exact lt_irrefl 0

/-- C2 (amended): a token whose extracted price series is element-wise
identical to that of every reference token, with at least five positive
prices and non-constant percentage changes (positive change variance, not
merely non-constant prices), gets relative volatility exactly 1; the same
subject series against constant reference series gets the soft
no-result. -/
theorem c2_parity :
    (∀ (ε : Type) (provider : Provider ε) (token : String)
        (refs md : List String) (tf : String) (H : PyVal),
      refs ≠ [] → (∀ r ∈ refs, r ∈ md) →
      provider token (timeframeHours tf) tf = .ok H →
      (∀ r ∈ refs, ∃ Hr, provider r (timeframeHours tf) tf = .ok Hr ∧
        extractPrices Hr = extractPrices H) →
      5 ≤ (extractPrices H).length →
      0 < sampleVar (pctChanges (extractPrices H)) →
      calculate_relative_volatility provider token refs md tf =
        .ok (some 1)) ∧
    calculate_relative_volatility constRefProv "TOK" ["ETH"] ["ETH"] "1h" =
      .ok none := by
  constructor
  · intro ε provider token refs md tf H h1 h2 h3 h4 h5 h6
    exact parity_case provider token refs md tf H h1 h2 h3 h4 h5 h6
  · apply calc_none_of_mean_nonpos
    rw [mean_zero_constRef (fun r hr => by
      rw [List.mem_singleton] at hr
      subst hr
      rfl)]
    exact lt_irrefl 0

/-- C2 witness: the example series of the specification, served identically
to the subject and two reference tokens, gives exactly 1. -/
theorem c2_parity_witness :
    calculate_relative_volatility parityProv "TOK" ["ETH", "SOL"]
      ["ETH", "SOL"] "1h" = .ok (some 1) :=
  c2_parity.1 Unit parityProv "TOK" ["ETH", "SOL"] ["ETH", "SOL"] "1h" hist8
    (by decide) (by decide) rfl (fun r hr => ⟨hist8, rfl, rfl⟩)
    (by decide) var_hist8_pos

/-- C3: extraction over entries mixing plain numbers, records with a
numeric price field and pairs with a numeric first element equals
extraction over the all-plain-number list; and an entry whose price is
absent or not positive is dropped without affecting the rest. -/
theorem c3_heterogeneous_extraction :
    (∀ es : List PyVal, (∀ e ∈ es, plainish e = true) →
      extractPrices (.list es) = extractPrices (.list (es.map asPlain))) ∧
    (∀ (e : PyVal) (es : List PyVal),
      (extractEntry e = none ∨ ∃ q, extractEntry e = some q ∧ q ≤ 0) →
      extractPrices (.list (e :: es)) = extractPrices (.list es)) := by
  constructor
  · exact extract_asPlain
  · intro e es hdrop
    unfold extractPrices
    dsimp only
    rw [List.filterMap_cons]
    rcases hdrop with hnone | ⟨q, hq, hq0⟩
    · rw [hnone]
    · rw [hq]
      dsimp only
      rw [if_neg (not_lt.mpr hq0)]

/-- C3 witness: a concrete mixed list extracts like its plain counterpart,
and a skipped entry (a string) changes nothing. -/
theorem c3_heterogeneous_extraction_witness :
    extractPrices (.list [.num 10, .dict (some (.num 20)),
        .list [.num 30, .obj]]) =
      extractPrices (.list [.num 10, .num 20, .num 30]) ∧
    extractPrices (.list (.str (some 5) :: [.dict (some (.num 20))])) =
      extractPrices (.list [.dict (some (.num 20))]) :=
  ⟨c3_heterogeneous_extraction.1
      [.num 10, .dict (some (.num 20)), .list [.num 30, .obj]] (by decide),
   c3_heterogeneous_extraction.2 (.str (some 5)) [.dict (some (.num 20))]
      (Or.inl rfl)⟩

/-- C4: fewer than five valid subject-token prices give the soft no-result,
whatever the reference tokens hold. -/
theorem c4_insufficient_token_data {ε : Type} (provider : Provider ε)
    (token : String) (refs md : List String) (tf : String) (H : PyVal)
    (hp : provider token (timeframeHours tf) tf = .ok H)
    (hlen : (extractPrices H).length < 5) :
    calculate_relative_volatility provider token refs md tf = .ok none := by
  unfold calculate_relative_volatility calcRelVolBody
  rw [hp]
  dsimp only
  rw [if_pos hlen]

/-- C4 witness: a three-entry subject history returns the no-result even
though both reference tokens carry the full example series. -/
theorem c4_insufficient_token_data_witness :
    calculate_relative_volatility shortProv "TOK" ["ETH", "SOL"]
      ["ETH", "SOL"] "7d" = .ok none :=
  c4_insufficient_token_data shortProv "TOK" ["ETH", "SOL"] ["ETH", "SOL"]
    "7d" shortHist rfl (by decide)

/-- C5 counterexample: `[100, 0]` has a non-positive value at position 1,
and the claim would make the transition from position 0 to position 1
skipped (no change produced); the code computes that transition — the guard
looks at the prior price 100 — and produces `-100`. -/
theorem c5_transition_indexing_counterexample :
    ([(100 : ℚ), 0].getD 1 1 ≤ 0) ∧
    pctChanges [(100 : ℚ), 0] = [-100] := by
  constructor
  · norm_num
  · norm_num [pctChanges]

/-- C5 (amended): the percentage-change loop keeps exactly the transitions
whose prior price (the divisor) is strictly positive; hence a zero or
negative price at position `i` suppresses the transition from `i` to
`i + 1`, not the one from `i - 1` to `i`, and no division by a non-positive
prior ever occurs. -/
theorem c5_prior_price_guard (ps : List ℚ) :
    pctChanges ps = (ps.zip ps.tail).filterMap
      fun q => if 0 < q.1 then some ((q.2 / q.1 - 1) * 100) else none :=
  pctChanges_eq_filterMap ps

/-- C6: an exactly-zero averaged reference volatility yields the soft
no-result, not a division error and not infinity. -/
theorem c6_zero_market_volatility {ε : Type} (provider : Provider ε)
    (token : String) (refs md : List String) (tf : String)
    (hm : rmean (marketVols provider md (timeframeHours tf) tf refs) = 0) :
    calculate_relative_volatility provider token refs md tf = .ok none := by
  apply calc_none_of_mean_nonpos
  rw [hm]
  exact lt_irrefl 0

/-- C6 witness: a constant reference series makes the averaged volatility
zero and the result the no-result. -/
theorem c6_zero_market_volatility_witness :
    calculate_relative_volatility constRefProv "TOK" ["BTC"] ["BTC"] "24h" =
      .ok none :=
  c6_zero_market_volatility constRefProv "TOK" ["BTC"] ["BTC"] "24h"
    (mean_zero_constRef (fun r hr => by
      rw [List.mem_singleton] at hr
      subst hr
      rfl))

/-- C7: when every reference token is served an empty sequence or `None`,
the result is the soft no-result even with a fully valid subject series. -/
theorem c7_no_reference_data {ε : Type} (provider : Provider ε)
    (token : String) (refs md : List String) (tf : String)
    (h : ∀ r ∈ refs,
      provider r (timeframeHours tf) tf = .ok (.list []) ∨
      provider r (timeframeHours tf) tf = .ok .vnone) :
    calculate_relative_volatility provider token refs md tf = .ok none := by
  apply calc_none_of_mean_nonpos
  rw [marketVols_eq_nil (fun r hr => refContrib_none_of_no_data (h r hr)),
    rmean_nil]
  exact lt_irrefl 0

/-- C7 witness: empty reference histories against the full example subject
series give the no-result. -/
theorem c7_no_reference_data_witness :
    calculate_relative_volatility emptyRefProv "TOK" ["ETH", "SOL"]
      ["ETH", "SOL"] "1h" = .ok none :=
  c7_no_reference_data emptyRefProv "TOK" ["ETH", "SOL"] ["ETH", "SOL"] "1h"
    (fun r hr => by
      rcases List.mem_cons.mp hr with h | h
      · subst h
        exact Or.inl rfl
      · rw [List.mem_singleton] at h
        subst h
        exact Or.inl rfl)

/-- C8: the lookback window is 24 hours for "1h", 168 for "24h", 720 for
"7d", and 720 (the longest window, no error) for anything else. -/
theorem c8_timeframe_windows :
    timeframeHours "1h" = 24 ∧ timeframeHours "24h" = 168 ∧
    timeframeHours "7d" = 720 ∧
    (∀ tf : String, tf ≠ "1h" → tf ≠ "24h" → timeframeHours tf = 720) := by
  refine ⟨rfl, rfl, rfl, ?_⟩
  intro tf h1 h2
  unfold timeframeHours
  rw [if_neg h1, if_neg h2]

/-- C8 witness: an unknown timeframe string falls back to the longest
window. -/
theorem c8_timeframe_windows_witness : timeframeHours "30d" = 720 :=
  c8_timeframe_windows.2.2.2 "30d" (by decide) (by decide)

/-- C9: a reference token missing from `market_data` contributes nothing:
its history is never fetched (the result is insensitive to what the
provider would answer for it) and removing it from the basket leaves the
result unchanged. -/
theorem c9_market_data_gates_baseline {ε : Type} (p1 p2 : Provider ε)
    (token : String) (pre post : List String) (ref : String)
    (md : List String) (tf : String)
    (hmem : ref ∉ md) (htok : token ≠ ref)
    (hag : ∀ s h t, s ≠ ref → p1 s h t = p2 s h t) :
    calculate_relative_volatility p1 token (pre ++ ref :: post) md tf =
      calculate_relative_volatility p2 token (pre ++ post) md tf := by
  have hmv := marketVols_skip p1 p2 md (timeframeHours tf) tf ref pre post
    hmem hag
  unfold calculate_relative_volatility calcRelVolBody
  rw [hag token (timeframeHours tf) tf htok]
  simp only [hmv]

/-- C9 witness: the excluded token "OUT" may even make the provider raise;
with "OUT" absent from `market_data`, the result equals the run without
"OUT" in the basket. -/
theorem c9_market_data_gates_baseline_witness :
    calculate_relative_volatility parityProv "TOK"
      (["ETH"] ++ "OUT" :: ["SOL"]) ["ETH", "SOL"] "1h" =
    calculate_relative_volatility altProv "TOK" (["ETH"] ++ ["SOL"])
      ["ETH", "SOL"] "1h" :=
  c9_market_data_gates_baseline parityProv altProv "TOK" ["ETH"] ["SOL"]
    "OUT" ["ETH", "SOL"] "1h" (by decide) (by decide)
    (fun s h t hs => by simp [parityProv, altProv, hs])

/-- C10: extraction keeps only positive prices, so the change loop skips
nothing (exactly one change per consecutive pair, every divisor positive),
and once the five-price check passes at least four changes exist, making
the fewer-than-two-changes guard (and the division-error handler it
shields) unreachable. -/
theorem c10_guards_unreachable (H : PyVal) :
    (∀ p ∈ extractPrices H, 0 < p) ∧
    (pctChanges (extractPrices H)).length = (extractPrices H).length - 1 ∧
    (5 ≤ (extractPrices H).length →
      4 ≤ (pctChanges (extractPrices H)).length) := by
  refine ⟨fun p hp => extractPrices_pos hp,
    pctChanges_length_of_pos _ (fun p hp => extractPrices_pos hp), ?_⟩
  intro h5
  have hl := pctChanges_length_of_pos (extractPrices H)
    (fun p hp => extractPrices_pos hp)
  omega

/-- C10 witness: on the example series the five-price check passes and the
change count is at least four. -/
theorem c10_guards_unreachable_witness :
    4 ≤ (pctChanges (extractPrices hist8)).length :=
  (c10_guards_unreachable hist8).2.2 (by decide)

end Volatility
